import Mathlib

/-!
Shallow embedding of the wasm test-execution core of this repository
(`test/cctest/wasm/wasm-run-utils.h`).  Pieces of the engine that the header
only declares or calls (the wasm interpreter, `WasmModule::add_signature`,
`NativeModule::RecompileForTiering`, the linear-memory access path, import
binding) are modelled from the spec and marked as such in their doc comments.
-/

namespace V8Wasm

/-- Wasm value types, as used for structural signature comparison. -/
inductive ValueType where
  | i32
  | i64
  | f32
  | f64
deriving DecidableEq

/-- A function signature: ordered parameter and return type sequences.
Structural equality on this structure is the spec's "structural comparison". -/
structure FunctionSig where
  params : List ValueType
  returns : List ValueType
deriving DecidableEq

/-- `ExecutionTier` of the engine (compiled tiers). -/
inductive ExecutionTier where
  | kLiftoff
  | kTurbofan
deriving DecidableEq

/-- `TestExecutionTier` from `wasm-run-utils.h`. -/
inductive TestExecutionTier where
  | kLiftoff
  | kTurbofan
  | kInterpreter
  | kLiftoffForFuzzing
deriving DecidableEq

/-- Tiering state of a native module (`kTieredDown` forces baseline). -/
inductive TieringState where
  | kTieredUp
  | kTieredDown
deriving DecidableEq

/-- The observable tiering-related state of a `NativeModule`: its tiering
state and the current tier of each function's code object. -/
structure NativeModule where
  tiering_state : TieringState
  functionTiers : List ExecutionTier
deriving DecidableEq

/-- `NativeModule::SetTieringState`. -/
def SetTieringState (nm : NativeModule) (ts : TieringState) : NativeModule :=
  { nm with tiering_state := ts }

/-- Modelled from the spec: `NativeModule::RecompileForTiering` is missing from
the sources; per the spec a tier-down request "resets every function of a
module" to the baseline tier, so recompilation replaces every function's code
object with one of the tier selected by the tiering state. -/
def RecompileForTiering (nm : NativeModule) : NativeModule :=
  match nm.tiering_state with
  | .kTieredDown =>
      { nm with functionTiers := nm.functionTiers.map (fun _ => ExecutionTier.kLiftoff) }
  | .kTieredUp =>
      { nm with functionTiers := nm.functionTiers.map (fun _ => ExecutionTier.kTurbofan) }

/-- The state of a `TestingModuleBuilder` relevant to the claims: the module's
type table, the test execution tier, the native module, and the step budget. -/
structure TestingModuleBuilder where
  types : List FunctionSig
  execution_tier_ : TestExecutionTier
  native_module_ : NativeModule
  max_steps_ : Int
deriving DecidableEq

/-- Modelled from the spec: `WasmModule::add_signature` is missing from the
sources; per the spec the registry "deduplicates by structural comparison of
parameter/return type sequences", so a structurally equal signature is not
appended again. -/
def add_signature (types : List FunctionSig) (sig : FunctionSig) : List FunctionSig :=
  if sig ∈ types then types else types ++ [sig]

/-- `TestingModuleBuilder::AddSignature` from `wasm-run-utils.h`: calls
`add_signature`, then `CHECK_GT(127, types.size())` (modelled as `none` on
CHECK failure, i.e. process abort) and returns `types.size() - 1` as a byte. -/
def AddSignature (b : TestingModuleBuilder) (sig : FunctionSig) :
    Option (TestingModuleBuilder × Nat) :=
  let types := add_signature b.types sig
  if 127 > types.length then
    some ({ b with types := types }, types.length - 1)
  else
    none

/-- `TestingModuleBuilder::SetTieredDown`: sets the native module's tiering
state to `kTieredDown` and the test execution tier to `kLiftoff`. -/
def SetTieredDown (b : TestingModuleBuilder) : TestingModuleBuilder :=
  { b with
    native_module_ := SetTieringState b.native_module_ TieringState.kTieredDown,
    execution_tier_ := TestExecutionTier.kLiftoff }

/-- `TestingModuleBuilder::TierDown`: `SetTieredDown()` followed by
`RecompileForTiering()`. -/
def TierDown (b : TestingModuleBuilder) : TestingModuleBuilder :=
  let b1 := SetTieredDown b
  { b1 with native_module_ := RecompileForTiering b1.native_module_ }

/-- `TestingModuleBuilder::execution_tier`: maps the test tier to the engine
tier; `UNREACHABLE()` for the interpreter and fuzzing tiers is modelled as
`none`. -/
def execution_tier (b : TestingModuleBuilder) : Option ExecutionTier :=
  match b.execution_tier_ with
  | .kTurbofan => some ExecutionTier.kTurbofan
  | .kLiftoff => some ExecutionTier.kLiftoff
  | _ => none

/-- An in-flight activation: it holds the tier of the code object it fetched
at call time (reference-counted, per the spec). -/
structure Activation where
  code_tier : ExecutionTier
deriving DecidableEq

/-- A module runtime: the builder state together with the in-flight
activations on the call stack. -/
structure ModuleRuntime where
  builder : TestingModuleBuilder
  inflight : List Activation
deriving DecidableEq

/-- `TierDown` acts on the builder state; activations already executing keep
the code objects they fetched at call time. -/
def TierDownRuntime (m : ModuleRuntime) : ModuleRuntime :=
  { m with builder := TierDown m.builder }

/-! ### Execution tiers

Modelled from the spec: the interpreter, baseline compiler and optimizing
compiler themselves are missing from the sources (only the dispatch in
`WasmRunner::Call` / `WasmRunner::CallInterpreter` is present).  Per the spec,
every tier exposes `invoke(function, arguments) -> {Returned, Trapped,
Exhausted}`; the interpreter is an operand-stack machine with a step budget
checked once per executed instruction, the compiled tiers have no intrinsic
timeout, and the optimizing tier differs from the baseline tier only by
optimization passes that must preserve observable semantics. -/

/-- 2^32, the modulus of the i32 value representation. -/
def M32 : Nat := 2 ^ 32

/-- The trap kinds the interpreter must report (a fragment of the spec's
list: integer division error and the unreachable instruction). -/
inductive TrapKind where
  | divByZero
  | divOverflow
  | unreachableCode
deriving DecidableEq

/-- The outcome of invoking a function on a tier, per the spec's common
contract. -/
inductive Outcome where
  | Returned (v : Nat)
  | Trapped (k : TrapKind)
  | Exhausted
deriving DecidableEq

/-- Instructions of the embedded bytecode fragment (i32 operand-stack
machine). -/
inductive Instr where
  | iconst (n : Nat)
  | localGet (i : Nat)
  | iadd
  | isub
  | idivs
  | unreach
deriving DecidableEq

/-- The signed reading of an i32 bit pattern. -/
def toSigned (n : Nat) : Int :=
  if n < 2 ^ 31 then (n : Int) else (n : Int) - 2 ^ 32

/-- Re-encoding of a signed result as an i32 bit pattern. -/
def ofSigned (z : Int) : Nat :=
  (z % (2 ^ 32 : Int)).toNat

/-- The result of executing one instruction: either a new operand stack or a
trap. -/
inductive StepRes where
  | next (stack : List Nat)
  | crash (k : TrapKind)
deriving DecidableEq

/-- One step of the operand-stack machine, shared by all tiers (the spec:
"All tiers must honor identical trap conditions and identical calling
convention").  Arguments are marshaled to i32, division traps on a zero
divisor and on `INT32_MIN / -1`. -/
def step (locals : List Nat) : Instr → List Nat → StepRes
  | .iconst n, stack => .next ((n % M32) :: stack)
  | .localGet i, stack => .next ((locals.getD i 0 % M32) :: stack)
  | .iadd, stack =>
      .next (((stack.getD 1 0 + stack.getD 0 0) % M32) :: stack.drop 2)
  | .isub, stack =>
      .next (((stack.getD 1 0 + M32 - stack.getD 0 0 % M32) % M32) :: stack.drop 2)
  | .idivs, stack =>
      let b := stack.getD 0 0
      let a := stack.getD 1 0
      if b % M32 = 0 then .crash .divByZero
      else if a % M32 = 2 ^ 31 ∧ b % M32 = M32 - 1 then .crash .divOverflow
      else .next ((ofSigned (Int.tdiv (toSigned (a % M32)) (toSigned (b % M32)))) :: stack.drop 2)
  | .unreach, _ => .crash .unreachableCode

/-- Compiled-tier execution of a function body: no step budget (the spec:
"compiled tiers have no intrinsic timeout").  Falling off the end returns the
top of the operand stack. -/
def execC : List Instr → List Nat → List Nat → Outcome
  | [], _, stack => .Returned (stack.headD 0)
  | i :: rest, locals, stack =>
      match step locals i stack with
      | .next s => execC rest locals s
      | .crash k => .Trapped k

/-- Interpreter execution of a function body with a step budget: the budget
is checked once per executed instruction and its exhaustion yields
`Exhausted` (the spec: "this is the interpreter's single suspension point,
checked once per executed instruction"). -/
def execI : Nat → List Instr → List Nat → List Nat → Outcome
  | _, [], _, stack => .Returned (stack.headD 0)
  | 0, _ :: _, _, _ => .Exhausted
  | fuel + 1, i :: rest, locals, stack =>
      match step locals i stack with
      | .next s => execI fuel rest locals s
      | .crash k => .Trapped k

/-- The optimizing tier's optimization pass, modelled as peephole constant
folding of `iconst a; iconst b; iadd`. -/
def constFold : List Instr → List Instr
  | .iconst a :: .iconst b :: .iadd :: rest => .iconst ((a + b) % M32) :: constFold rest
  | i :: rest => i :: constFold rest
  | [] => []

/-- `invoke` on the baseline (Liftoff) tier. -/
def invokeLiftoff (body : List Instr) (args : List Nat) : Outcome :=
  execC body args []

/-- `invoke` on the optimizing (Turbofan) tier: optimize, then execute. -/
def invokeTurbofan (body : List Instr) (args : List Nat) : Outcome :=
  execC (constFold body) args []

/-- `invoke` on the interpreter tier with a step budget. -/
def invokeInterpreter (maxSteps : Nat) (body : List Instr) (args : List Nat) : Outcome :=
  execI maxSteps body args []

/-! ### The call bridge (`WasmRunner::Call`) for compiled tiers -/

/-- The host-side state the call bridge manipulates: the thread-in-wasm flag
(`trap_handler::GetThreadInWasmThreadLocalAddress()`) and the static
`WasmRunnerBase::trap_happened` flag. -/
structure BridgeState where
  threadInWasm : Bool
  trapHappened : Bool
deriving DecidableEq

/-- The observable behavior of one execution of compiled guest code through
the wrapper: whether the testing trap callback fired during execution, and
the value the wrapper wrote into the return buffer. -/
structure GuestExec where
  traps : Bool
  retval : Nat
deriving DecidableEq

/-- The trap sentinel `static_cast<ReturnType>(0xDEADBEEFDEADBEEF)` for a
return type of `w` bits. -/
def sentinel64 (w : Nat) : Nat := 0xDEADBEEFDEADBEEF % 2 ^ w

/-- `WasmRunnerBase::SetUpTrapCallback`: resets `trap_happened` before the
call and installs the callback that sets it on a trap. -/
def SetUpTrapCallback (s : BridgeState) : BridgeState :=
  { s with trapHappened := false }

/-- The bridge state in which guest execution begins: after
`SetUpTrapCallback()` and `SetThreadInWasmFlag()` (`WasmRunner::Call` sets the
thread-in-wasm flag immediately before `runner.Call`). -/
def stateAtGuestEntry (s : BridgeState) : BridgeState :=
  { SetUpTrapCallback s with threadInWasm := true }

/-- The bridge state after `runner.Call` returns: the guest may have fired
the trap callback; the wrapper itself always returns to the bridge (traps are
signaled through the callback, not unwound). -/
def stateAfterGuestRun (s : BridgeState) (g : GuestExec) : BridgeState :=
  { stateAtGuestEntry s with
    trapHappened := (stateAtGuestEntry s).trapHappened || g.traps }

/-- The bridge state at which `WasmRunner::Call` returns: after
`ClearThreadInWasmFlag()`. -/
def stateAtReturn (s : BridgeState) (g : GuestExec) : BridgeState :=
  { stateAfterGuestRun s g with threadInWasm := false }

/-- `WasmRunner::Call` on a compiled tier, for a `w`-bit return type: runs the
guest between setting and clearing the thread-in-wasm flag, then returns the
trap sentinel if `trap_happened` was signaled and the guest's return value
otherwise, together with the final bridge state. -/
def Call (w : Nat) (s : BridgeState) (g : GuestExec) : Nat × BridgeState :=
  let s4 := stateAtReturn s g
  (if s4.trapHappened then sentinel64 w else g.retval, s4)

/-! ### `WasmRunner::CallInterpreter` and the runner's nondeterminism flag -/

/-- The interpreter states `WasmRunner::CallInterpreter` distinguishes after
`Run()` (`PAUSED` stands for any state other than `FINISHED`/`TRAPPED`, in
particular the state after step-budget exhaustion). -/
inductive InterpState where
  | FINISHED
  | TRAPPED
  | PAUSED
deriving DecidableEq

/-- The interpreter state after `Run()` for a given invoke outcome. -/
def interpStateAfterRun : Outcome → InterpState
  | .Returned _ => .FINISHED
  | .Trapped _ => .TRAPPED
  | .Exhausted => .PAUSED

/-- The runner state `CallInterpreter` updates: the
`possible_nondeterminism_` member of `WasmRunnerBase`. -/
structure RunnerState where
  possible_nondeterminism_ : Bool
deriving DecidableEq

/-- The observable result of one `WasmInterpreter` run: the invoke outcome
and the interpreter's `PossibleNondeterminism()` observation. -/
structure InterpreterRun where
  outcome : Outcome
  nondet : Bool
deriving DecidableEq

/-- `WasmRunner::CallInterpreter` for a `w`-bit return type: on `FINISHED`
returns the interpreter's return value and ors the nondeterminism observation
into `possible_nondeterminism_`; on `TRAPPED` returns the
`0xDEADBEEFDEADBEEF` sentinel; otherwise (in particular after step-budget
exhaustion) returns `ReturnType{0}`. -/
def CallInterpreter (w : Nat) (s : RunnerState) (r : InterpreterRun) :
    Nat × RunnerState :=
  match r.outcome with
  | .Returned v =>
      (v % 2 ^ w,
       { s with possible_nondeterminism_ := s.possible_nondeterminism_ || r.nondet })
  | .Trapped _ => (sentinel64 w, s)
  | .Exhausted => (0, s)

/-- `WasmRunnerBase::possible_nondeterminism`: the queryable flag. -/
def possible_nondeterminism (s : RunnerState) : Bool :=
  s.possible_nondeterminism_

/-! ### Linear-memory accesses -/

/-- The size of the 32-bit address space: an address computation overflows
the address type iff it reaches this bound. -/
def addrTypeLimit : Nat := 2 ^ 32

/-- Modelled from the spec: the linear-memory load path is missing from the
sources; per the spec a load at address `a` with width `w` traps iff
`a + w` exceeds the current memory size or the addition overflows the address
type, and otherwise reads the `w` bytes starting at `a`. -/
def memLoad (mem : List Nat) (a w : Nat) : Option (List Nat) :=
  if a + w ≤ mem.length ∧ a + w < addrTypeLimit then
    some ((mem.drop a).take w)
  else
    none

/-- Modelled from the spec: the linear-memory store path is missing from the
sources; per the spec a store of `bytes` at address `a` traps under the same
bounds condition as a load and otherwise overwrites the addressed range. -/
def memStore (mem : List Nat) (a : Nat) (bytes : List Nat) : Option (List Nat) :=
  if a + bytes.length ≤ mem.length ∧ a + bytes.length < addrTypeLimit then
    some (mem.take a ++ bytes ++ mem.drop (a + bytes.length))
  else
    none

/-! ### Import binding (Scenario A) -/

/-- A host-provided import: its signature and its arbitrary host-side
semantics. -/
structure HostFunction where
  sig : FunctionSig
  impl : List Nat → Nat

/-- Modelled from the spec: the import-binding step of instantiation is
missing from the sources; per the spec it is "signature-checked (not
semantically validated) at bind time" — binding succeeds iff the host
function's signature structurally equals the declared import signature, and
never inspects the host semantics. -/
def bindImport (declared : FunctionSig) (host : HostFunction) :
    Option (List Nat → Nat) :=
  if host.sig = declared then some host.impl else none

/-- The signature `(i32, i32) -> i32` of the imported `mul`. -/
def sigMul : FunctionSig :=
  { params := [ValueType.i32, ValueType.i32], returns := [ValueType.i32] }

/-- The defined function `main(i32) -> i32 = mul(x, x)`, calling whatever
the import slot was bound to. -/
def mainBody (mulImpl : List Nat → Nat) (x : Nat) : Nat :=
  mulImpl [x % M32, x % M32] % M32

/-- The host `mul` of Scenario A that instead computes `x + y`. -/
def hostAddImpl : List Nat → Nat :=
  fun args => (args.getD 0 0 + args.getD 1 0) % M32

/-- Instantiate the Scenario A module with the given host `mul` and, if
instantiation succeeds, run `main(x)`. -/
def instantiateAndRunMain (host : HostFunction) (x : Nat) : Option Nat :=
  (bindImport sigMul host).map (fun f => mainBody f x)

/-! ### Theorems -/

/-- The optimization pass of the optimizing tier preserves the observable
outcome of execution on every body, locals and operand stack. -/
theorem exec_constFold (l : List Instr) :
    ∀ (stack locals : List Nat),
      execC (constFold l) locals stack = execC l locals stack := by
  induction l using constFold.induct with
  | case1 a b rest ih =>
      intro stack locals
      simp only [constFold, execC, step, List.getD, List.get?, List.drop]
      rw [ih]
      congr 2
      rw [Nat.mod_mod_of_dvd _ dvd_rfl, Nat.add_mod]
      simp only [Option.getD]
  | case2 i rest h ih =>
      intro stack locals
      rw [constFold.eq_2 i rest h]
      simp only [execC]
      cases hs : step locals i stack with
      | next s => simp only [ih]
      | crash k => rfl
  | case3 => intro stack locals; rfl

/-- A budgeted interpreter run that does not exhaust its step budget computes
exactly the compiled-tier outcome. -/
theorem execI_eq_execC (fuel : Nat) (l : List Instr) (locals stack : List Nat)
    (h : execI fuel l locals stack ≠ Outcome.Exhausted) :
    execI fuel l locals stack = execC l locals stack := by
  induction fuel, l, locals, stack using execI.induct with
  | case1 t x stack => simp only [execI, execC]
  | case2 head tail x x1 => exact absurd rfl h
  | case3 fuel i rest locals stack s hs ih =>
      simp only [execI, hs] at h ⊢
      simp only [execC, hs]
      exact ih h
  | case4 fuel i rest locals stack k hs =>
      simp only [execI, execC, hs]

/-- C1: for every function body and argument tuple, invoking on the
interpreter tier, the baseline (Liftoff) tier and the optimizing (Turbofan)
tier yields the same outcome — the same `Returned` value bit-for-bit or the
same `Trapped` verdict — whenever the interpreter's step budget does not cut
the run short (the integer fragment has no declared-nondeterministic bit
patterns, so agreement is exact). -/
theorem cross_tier_equivalence (body : List Instr) (args : List Nat) (maxSteps : Nat)
    (h : invokeInterpreter maxSteps body args ≠ Outcome.Exhausted) :
    invokeTurbofan body args = invokeLiftoff body args ∧
    invokeInterpreter maxSteps body args = invokeLiftoff body args :=
  ⟨exec_constFold body [] args, execI_eq_execC maxSteps body args [] h⟩

/-- Witness for C1 at the concrete body `2 + 3` with an ample budget. -/
theorem cross_tier_equivalence_witness :
    invokeInterpreter 5 [Instr.iconst 2, Instr.iconst 3, Instr.iadd] [] ≠
        Outcome.Exhausted ∧
      (invokeTurbofan [Instr.iconst 2, Instr.iconst 3, Instr.iadd] [] =
          invokeLiftoff [Instr.iconst 2, Instr.iconst 3, Instr.iadd] [] ∧
        invokeInterpreter 5 [Instr.iconst 2, Instr.iconst 3, Instr.iadd] [] =
          invokeLiftoff [Instr.iconst 2, Instr.iconst 3, Instr.iadd] []) :=
  ⟨by decide, cross_tier_equivalence _ _ 5 (by decide)⟩

/-- C2: for every call through the call bridge on a compiled tier, if a trap
is signaled during guest execution the caller receives the
`0xDEADBEEFDEADBEEF` sentinel (truncated to the return width) as a
distinguished non-exceptional outcome, and if no trap is signaled the caller
receives the guest's return value unchanged; in both cases `Call` returns
normally rather than propagating a raw fault. -/
theorem call_trap_sentinel (w : Nat) (s : BridgeState) (g : GuestExec) :
    (Call w s g).1 = if g.traps then sentinel64 w else g.retval := by
  cases g with
  | mk traps retval => cases traps <;> rfl

/-- C4: for every call into guest code on a compiled tier, the thread-in-wasm
flag is true in the state in which guest execution begins and is false in the
state the call bridge returns in, for every guest behavior (normal
return or trap) and every prior flag state. -/
theorem thread_in_wasm_flag_scoped (w : Nat) (s : BridgeState) (g : GuestExec) :
    (stateAtGuestEntry s).threadInWasm = true ∧
    ((Call w s g).2).threadInWasm = false :=
  ⟨rfl, rfl⟩

/-- C3 counterexample: running the body `[iconst 0]` with an exhausted step
budget puts the interpreter in the `PAUSED` state and makes
`CallInterpreter` return the value `0`, which is exactly the value a normal
(`FINISHED`) run of the same body returns — so the exhausted call's return
value is not distinct from every normal result value. -/
theorem exhausted_value_collides_with_zero :
    interpStateAfterRun (execI 0 [Instr.iconst 0] [] []) = InterpState.PAUSED ∧
    (CallInterpreter 32 ⟨false⟩ ⟨execI 0 [Instr.iconst 0] [] [], false⟩).1 = 0 ∧
    execI 5 [Instr.iconst 0] [] [] = Outcome.Returned 0 ∧
    (CallInterpreter 32 ⟨false⟩ ⟨execI 5 [Instr.iconst 0] [] [], false⟩).1 = 0 := by
  decide

/-- C3 (amended): when the step budget is exhausted mid-execution, the
interpreter's state after the run is distinct from both the state of every
normal completion (`FINISHED`) and the state of every trap (`TRAPPED`), but
`WasmRunner::CallInterpreter` then returns the value `0`, which is not
distinct from a normal zero result. -/
theorem step_budget_exhaustion (fuel w : Nat) (body : List Instr)
    (locals stack : List Nat) (s : RunnerState) (n : Bool)
    (h : execI fuel body locals stack = Outcome.Exhausted) :
    interpStateAfterRun (execI fuel body locals stack) ≠ InterpState.FINISHED ∧
    interpStateAfterRun (execI fuel body locals stack) ≠ InterpState.TRAPPED ∧
    (CallInterpreter w s ⟨execI fuel body locals stack, n⟩).1 = 0 := by
  rw [h]
  exact ⟨by decide, by decide, rfl⟩

/-- Witness for the amended C3 at the body `[iconst 0]` with budget `0`. -/
theorem step_budget_exhaustion_witness :
    execI 0 [Instr.iconst 0] [] [] = Outcome.Exhausted ∧
    (interpStateAfterRun (execI 0 [Instr.iconst 0] [] []) ≠ InterpState.FINISHED ∧
     interpStateAfterRun (execI 0 [Instr.iconst 0] [] []) ≠ InterpState.TRAPPED ∧
     (CallInterpreter 32 ⟨false⟩ ⟨execI 0 [Instr.iconst 0] [] [], false⟩).1 = 0) :=
  ⟨by decide, step_budget_exhaustion 0 32 [Instr.iconst 0] [] [] ⟨false⟩ false (by decide)⟩

/-- C5: after `TierDown()` the builder reports the Liftoff tier as the
current execution tier, every function's code object is at the baseline
tier, and the activations already on the call stack (with the code objects
they fetched at call time) are untouched — for every prior runtime state. -/
theorem tier_down_visible (m : ModuleRuntime) :
    execution_tier (TierDownRuntime m).builder = some ExecutionTier.kLiftoff ∧
    (TierDownRuntime m).builder.native_module_.functionTiers =
      m.builder.native_module_.functionTiers.map (fun _ => ExecutionTier.kLiftoff) ∧
    (TierDownRuntime m).inflight = m.inflight :=
  ⟨rfl, rfl, rfl⟩

/-- C6: for every memory, address `a` and width `w`, a linear-memory load
(and likewise a store of `w` bytes) traps — returns `none` — exactly when
`a + w` exceeds the current memory size or the addition overflows the 32-bit
address type. -/
theorem mem_bounds_law (mem : List Nat) (a w : Nat) (bytes : List Nat) :
    (memLoad mem a w = none ↔ mem.length < a + w ∨ addrTypeLimit ≤ a + w) ∧
    (memStore mem a bytes = none ↔
      mem.length < a + bytes.length ∨ addrTypeLimit ≤ a + bytes.length) := by
  constructor
  · rw [memLoad]
    split <;> rename_i hc <;> simp <;> omega
  · rw [memStore]
    split <;> rename_i hc <;> simp <;> omega

/-- A successful load reads exactly `w` bytes. -/
theorem memLoad_length (mem : List Nat) (a w : Nat) (out : List Nat)
    (h : memLoad mem a w = some out) : out.length = w := by
  rw [memLoad] at h
  split at h
  · rename_i hc
    rw [Option.some.injEq] at h
    subst h
    simp
    omega
  · exact absurd h (by simp)

/-- The signature `() -> i32`, used as a concrete counterexample input. -/
def sigA : FunctionSig := ⟨[], [ValueType.i32]⟩

/-- The signature `(i32) -> i32`, used as a concrete counterexample input. -/
def sigB : FunctionSig := ⟨[ValueType.i32], [ValueType.i32]⟩

/-- A fresh builder with an empty type table. -/
def cexBuilder0 : TestingModuleBuilder :=
  ⟨[], TestExecutionTier.kTurbofan, ⟨TieringState.kTieredUp, []⟩, 0⟩

/-- The builder after adding `sigA`. -/
def cexBuilder1 : TestingModuleBuilder := { cexBuilder0 with types := [sigA] }

/-- The builder after adding `sigA` and `sigB`. -/
def cexBuilder2 : TestingModuleBuilder := { cexBuilder0 with types := [sigA, sigB] }

/-- C7 counterexample: after `AddSignature(sigA)` (index 0) and
`AddSignature(sigB)` (index 1), calling `AddSignature(sigA)` again creates no
new entry but returns index `1` — the last type index — rather than the
existing index `0` of the structurally equal signature. -/
theorem AddSignature_duplicate_not_existing_index :
    AddSignature cexBuilder0 sigA = some (cexBuilder1, 0) ∧
    AddSignature cexBuilder1 sigB = some (cexBuilder2, 1) ∧
    AddSignature cexBuilder2 sigA = some (cexBuilder2, 1) ∧
    cexBuilder2.types.indexOf sigA = 0 ∧ (1 : Nat) ≠ 0 := by
  decide

/-- The signature just added is always present in the registry. -/
theorem mem_add_signature (types : List FunctionSig) (sig : FunctionSig) :
    sig ∈ add_signature types sig := by
  unfold add_signature
  split
  · assumption
  · simp

/-- Registering a signature that is already present leaves the type table
unchanged. -/
theorem add_signature_mem_eq (types : List FunctionSig) (sig : FunctionSig)
    (h : sig ∈ types) : add_signature types sig = types := by
  unfold add_signature
  exact if_pos h

/-- Registering the same signature twice is the same as registering it
once. -/
theorem add_signature_idem (types : List FunctionSig) (sig : FunctionSig) :
    add_signature (add_signature types sig) sig = add_signature types sig :=
  add_signature_mem_eq _ _ (mem_add_signature types sig)

/-- C7 (amended): `AddSignature` deduplicates by structural comparison — a
structurally equal signature already present creates no new entry — and
adding the same signature twice in immediate succession returns the same
index; the index returned for a duplicate is however the current last type
index, not in general the duplicate's own earlier index. -/
theorem AddSignature_dedup (b b1 : TestingModuleBuilder) (sig : FunctionSig) (i : Nat)
    (h : AddSignature b sig = some (b1, i)) :
    (sig ∈ b.types → b1.types = b.types) ∧
    AddSignature b1 sig = some (b1, i) := by
  simp only [AddSignature] at h ⊢
  split at h
  case isTrue hlt =>
    rw [Option.some.injEq, Prod.mk.injEq] at h
    obtain ⟨hb1, hi⟩ := h
    subst hb1
    subst hi
    refine ⟨fun hmem => add_signature_mem_eq b.types sig hmem, ?_⟩
    simp only [add_signature_idem]
    rw [if_pos hlt]
  case isFalse hge =>
    exact absurd h (by simp)

/-- Witness for the amended C7: re-adding `sigA` right after it was added
returns the same builder and the same index `0`. -/
theorem AddSignature_dedup_witness :
    AddSignature cexBuilder0 sigA = some (cexBuilder1, 0) ∧
    ((sigA ∈ cexBuilder0.types → cexBuilder1.types = cexBuilder0.types) ∧
     AddSignature cexBuilder1 sigA = some (cexBuilder1, 0)) :=
  ⟨by decide, AddSignature_dedup cexBuilder0 cexBuilder1 sigA 0 (by decide)⟩

/-- C8: binding the Scenario A import `mul(i32,i32)->i32` to a host function
that instead computes `x + y` succeeds (the binder checks signatures only,
never semantics), and `main(5) = mul(5,5)` then returns `10`, not `25`. -/
theorem import_signature_only :
    (bindImport sigMul ⟨sigMul, hostAddImpl⟩).isSome = true ∧
    instantiateAndRunMain ⟨sigMul, hostAddImpl⟩ 5 = some 10 ∧
    instantiateAndRunMain ⟨sigMul, hostAddImpl⟩ 5 ≠ some 25 :=
  ⟨rfl, rfl, by decide⟩

/-- C9: when a call finishes (`FINISHED` state), `CallInterpreter` ors the
interpreter's nondeterminism observation into the runner's flag, so the
queryable `possible_nondeterminism()` afterwards is the old flag or-ed with
the observation made during that call. -/
theorem possible_nondeterminism_updated (w : Nat) (s : RunnerState)
    (r : InterpreterRun) (v : Nat) (h : r.outcome = Outcome.Returned v) :
    possible_nondeterminism (CallInterpreter w s r).2 =
      (s.possible_nondeterminism_ || r.nondet) := by
  cases r with
  | mk o n => cases o <;> simp_all [CallInterpreter, possible_nondeterminism]

/-- Witness for C9 at a finished run that observed nondeterminism. -/
theorem possible_nondeterminism_updated_witness :
    possible_nondeterminism
        (CallInterpreter 32 ⟨false⟩ ⟨Outcome.Returned 0, true⟩).2 =
      (false || true) :=
  possible_nondeterminism_updated 32 ⟨false⟩ ⟨Outcome.Returned 0, true⟩ 0 rfl

/-- C10: `AddSignature` aborts (CHECK failure, modelled as `none`) exactly
when the registered type table has reached 127 entries, and every successful
call returns the new number of types minus one, which is always below 126
(and hence fits in a single byte). -/
theorem AddSignature_capacity (b : TestingModuleBuilder) (sig : FunctionSig) :
    (AddSignature b sig).isNone = decide (127 ≤ (add_signature b.types sig).length) ∧
    (AddSignature b sig).all
      (fun p => decide (p.2 = p.1.types.length - 1) && decide (p.2 < 126)) = true := by
  simp only [AddSignature]
  split <;> rename_i hc
  · refine ⟨by simp; omega, ?_⟩
    simp [Option.all]
    omega
  · refine ⟨by simp; omega, rfl⟩

end V8Wasm
